import Mathlib

/-! Verification of the particle-morph animation core: the sampling functions and
    lerp from src/utils/math.ts, the per-frame chaos-level / ornament / star
    smoothing from the component's useFrame callback, and the foliage vertex
    shader's position and size logic. Randomness (Math.random() draws) is made
    explicit as function parameters. -/

open Real Filter

/-- From src/utils/math.ts: `lerp = (start, end, t) => start * (1 - t) + end * t`.
    The source's second parameter is called `end`, a reserved word in Lean, so it
    is named `stop` here. Polymorphic so it can be used at ℚ and at ℝ. -/
def lerp {α : Type*} [CommRing α] (start stop t : α) : α :=
  start * (1 - t) + stop * t

/-- JavaScript's Math.cbrt: the real cube root, the odd extension of x ^ (1/3). -/
noncomputable def cbrt (x : ℝ) : ℝ :=
  if x < 0 then -((-x) ^ ((1 : ℝ) / 3)) else x ^ ((1 : ℝ) / 3)

/-- From src/utils/math.ts `getRandomSpherePoint`. The three Math.random() draws
    are the explicit parameters u, v, w, in the order the source draws them. -/
noncomputable def getRandomSpherePoint (radius u v w : ℝ) : ℝ × ℝ × ℝ :=
  let theta := 2 * Real.pi * u
  let phi := Real.arccos (2 * v - 1)
  let r := cbrt w * radius
  let sinPhi := Real.sin phi
  (r * sinPhi * Real.cos theta, r * sinPhi * Real.sin theta, r * Real.cos phi)

/-- Written from the spec's sampling method, for comparison with the source:
    azimuth theta = 2π·u1, polar angle phi = acos(2·u2 − 1), radial distance
    radius·cbrt(u3), standard spherical-to-Cartesian conversion. -/
noncomputable def specSphereSample (radius u1 u2 u3 : ℝ) : ℝ × ℝ × ℝ :=
  let theta := 2 * Real.pi * u1
  let phi := Real.arccos (2 * u2 - 1)
  let r := radius * cbrt u3
  (r * Real.sin phi * Real.cos theta, r * Real.sin phi * Real.sin theta, r * Real.cos phi)

/-- Euclidean norm of a point given as a coordinate triple. -/
noncomputable def norm3 (p : ℝ × ℝ × ℝ) : ℝ :=
  Real.sqrt (p.1 ^ 2 + p.2.1 ^ 2 + p.2.2 ^ 2)

/-- Horizontal (xz-plane) distance of a point from the y-axis. -/
noncomputable def horizDist (p : ℝ × ℝ × ℝ) : ℝ :=
  Real.sqrt (p.1 ^ 2 + p.2.2 ^ 2)

/-- From src/utils/math.ts `getConePoint`. The three Math.random() draws are the
    explicit parameters u1 (height), u2 (azimuth), u3 (radial fraction), in the
    order the source draws them. -/
noncomputable def getConePoint (height radiusBase yOffset u1 u2 u3 : ℝ) : ℝ × ℝ × ℝ :=
  let y := u1 * height
  let taper := (1 - y / height) ^ (0.8 : ℝ)
  let actualR := radiusBase * taper
  let theta := u2 * (Real.pi * 2)
  let r := actualR * (0.4 + u3 * 0.6)
  (r * Real.cos theta, y + yOffset, r * Real.sin theta)

/-- Per-frame global blend update, from the useFrame callback:
    `const newChaos = lerp(currentChaos, targetChaosLevel, delta * 2.0)`. -/
def updateChaosLevel (currentChaos targetChaosLevel delta : ℚ) : ℚ :=
  lerp currentChaos targetChaosLevel (delta * 2)

/-- Modelled from the spec's defensive contract, for comparison with the source:
    dt clamped to 0 when negative and targetChaosLevel clamped to [0,1] before
    they reach the smoothing computation. -/
def clampedUpdateChaosLevel (currentChaos targetChaosLevel delta : ℚ) : ℚ :=
  lerp currentChaos (min 1 (max 0 targetChaosLevel)) (max 0 delta * 2)

/-- Iterating the per-frame update with targetChaosLevel held at 1.0 and a fixed
    frame delta dt, starting from chaosLevel c0. -/
noncomputable def chaosSeq (dt c0 : ℝ) : ℕ → ℝ
  | 0 => c0
  | n + 1 => lerp (chaosSeq dt c0 n) 1 (dt * 2)

theorem chaosSeq_zero (dt c0 : ℝ) : chaosSeq dt c0 0 = c0 := rfl

theorem chaosSeq_succ (dt c0 : ℝ) (n : ℕ) :
    chaosSeq dt c0 (n + 1) = lerp (chaosSeq dt c0 n) 1 (dt * 2) := rfl

/-- Per-frame ornament display scale, from the useFrame callback:
    `const scale = lerp(0.35, 0.1, newChaos)`. -/
def ornamentScale (newChaos : ℚ) : ℚ :=
  lerp 0.35 0.1 newChaos

/-- Per-frame ornament (and star) position smoothing, from the useFrame callback:
    each axis does `current = lerp(current, target, delta * 4.0)`. -/
def ornamentPosStep (current target : ℚ × ℚ × ℚ) (delta : ℚ) : ℚ × ℚ × ℚ :=
  (lerp current.1 target.1 (delta * 4),
   lerp current.2.1 target.2.1 (delta * 4),
   lerp current.2.2 target.2.2 (delta * 4))

/-- THREE.Vector3 constructor: components default to 0 when omitted. -/
def vector3 (x : ℚ := 0) (y : ℚ := 0) (z : ℚ := 0) : ℚ × ℚ × ℚ :=
  (x, y, z)

def ORNAMENT_COUNT : ℕ := 400

/-- Source: `new Array(ORNAMENT_COUNT).fill(0).map(() => new THREE.Vector3())`. -/
def initialCurrentPos : List (ℚ × ℚ × ℚ) :=
  List.replicate ORNAMENT_COUNT vector3

/-- Source: `useRef(new THREE.Vector3(0, 0, 0))`. -/
def initialStarPos : ℚ × ℚ × ℚ :=
  vector3 0 0 0

/-- Three-component vector, for the vertex shader's vec3 values. -/
@[ext]
structure V3 where
  x : ℝ
  y : ℝ
  z : ℝ

/-- Four-component vector, for the vertex shader's vec4 values. -/
@[ext]
structure V4 where
  x : ℝ
  y : ℝ
  z : ℝ
  w : ℝ

noncomputable def V3.add (a b : V3) : V3 := ⟨a.x + b.x, a.y + b.y, a.z + b.z⟩

noncomputable def V3.sub (a b : V3) : V3 := ⟨a.x - b.x, a.y - b.y, a.z - b.z⟩

/-- GLSL vec3 * float. -/
noncomputable def V3.scale (a : V3) (s : ℝ) : V3 := ⟨a.x * s, a.y * s, a.z * s⟩

/-- GLSL vec3 + float (the scalar is added to every component). -/
noncomputable def V3.addScalar (a : V3) (s : ℝ) : V3 := ⟨a.x + s, a.y + s, a.z + s⟩

/-- GLSL vec3 - float. -/
noncomputable def V3.subScalar (a : V3) (s : ℝ) : V3 := ⟨a.x - s, a.y - s, a.z - s⟩

noncomputable def V3.dot (a b : V3) : ℝ := a.x * b.x + a.y * b.y + a.z * b.z

/-- GLSL floor, componentwise. -/
noncomputable def V3.floor (a : V3) : V3 := ⟨↑⌊a.x⌋, ↑⌊a.y⌋, ↑⌊a.z⌋⟩

noncomputable def V4.add (a b : V4) : V4 := ⟨a.x + b.x, a.y + b.y, a.z + b.z, a.w + b.w⟩

noncomputable def V4.sub (a b : V4) : V4 := ⟨a.x - b.x, a.y - b.y, a.z - b.z, a.w - b.w⟩

/-- GLSL vec4 * vec4, componentwise. -/
noncomputable def V4.mul (a b : V4) : V4 := ⟨a.x * b.x, a.y * b.y, a.z * b.z, a.w * b.w⟩

/-- GLSL vec4 * float. -/
noncomputable def V4.scale (a : V4) (s : ℝ) : V4 := ⟨a.x * s, a.y * s, a.z * s, a.w * s⟩

/-- GLSL vec4 + float. -/
noncomputable def V4.addScalar (a : V4) (s : ℝ) : V4 := ⟨a.x + s, a.y + s, a.z + s, a.w + s⟩

noncomputable def V4.dot (a b : V4) : ℝ := a.x * b.x + a.y * b.y + a.z * b.z + a.w * b.w

/-- GLSL floor, componentwise. -/
noncomputable def V4.floor (a : V4) : V4 := ⟨↑⌊a.x⌋, ↑⌊a.y⌋, ↑⌊a.z⌋, ↑⌊a.w⌋⟩

/-- GLSL step(edge, x): 0.0 when x < edge, otherwise 1.0. -/
noncomputable def gstep (edge x : ℝ) : ℝ := if x < edge then 0 else 1

/-- Shader: `vec3 mod289(vec3 x) { return x - floor(x * (1.0 / 289.0)) * 289.0; }` -/
noncomputable def mod289v3 (x : V3) : V3 :=
  x.sub ((x.scale (1 / 289)).floor.scale 289)

/-- Shader: `vec4 mod289(vec4 x) { return x - floor(x * (1.0 / 289.0)) * 289.0; }` -/
noncomputable def mod289v4 (x : V4) : V4 :=
  x.sub ((x.scale (1 / 289)).floor.scale 289)

/-- Shader: `vec4 permute(vec4 x) { return mod289(((x*34.0)+1.0)*x); }` -/
noncomputable def permute (x : V4) : V4 :=
  mod289v4 (((x.scale 34).addScalar 1).mul x)

/-- Shader: `vec4 taylorInvSqrt(vec4 r) { return 1.79284291400159 - 0.85373472095314 * r; }` -/
noncomputable def taylorInvSqrt (r : V4) : V4 :=
  ⟨1.79284291400159 - 0.85373472095314 * r.x,
   1.79284291400159 - 0.85373472095314 * r.y,
   1.79284291400159 - 0.85373472095314 * r.z,
   1.79284291400159 - 0.85373472095314 * r.w⟩

/-- The vertex shader's `float snoise(vec3 v)` (Ashima 3D simplex noise),
    translated line by line; GLSL swizzles are spelled out componentwise, and
    the shader's constants C = vec2(1/6, 1/3) and D = vec4(0, 0.5, 1, 2) are
    substituted where the swizzles C.xxx, C.yyy, D.yyy, D.wyz, D.xzx occur. -/
noncomputable def snoise (v : V3) : ℝ :=
  let Cx : ℝ := 1 / 6
  let Cy : ℝ := 1 / 3
  let i : V3 := (v.addScalar (v.dot ⟨Cy, Cy, Cy⟩)).floor
  let x0 : V3 := (v.sub i).addScalar (i.dot ⟨Cx, Cx, Cx⟩)
  let g : V3 := ⟨gstep x0.y x0.x, gstep x0.z x0.y, gstep x0.x x0.z⟩
  let l : V3 := ⟨1 - g.x, 1 - g.y, 1 - g.z⟩
  let i1 : V3 := ⟨min g.x l.z, min g.y l.x, min g.z l.y⟩
  let i2 : V3 := ⟨max g.x l.z, max g.y l.x, max g.z l.y⟩
  let x1 : V3 := (x0.sub i1).addScalar Cx
  let x2 : V3 := (x0.sub i2).addScalar Cy
  let x3 : V3 := x0.subScalar 0.5
  let i : V3 := mod289v3 i
  let p : V4 :=
    permute ((permute ((permute ((⟨0, i1.z, i2.z, 1⟩ : V4).addScalar i.z)).addScalar
      i.y |>.add ⟨0, i1.y, i2.y, 1⟩)).addScalar i.x |>.add ⟨0, i1.x, i2.x, 1⟩)
  let n_ : ℝ := 0.142857142857
  let ns : V3 := ⟨n_ * 2 - 0, n_ * 0.5 - 1, n_ * 1 - 0⟩
  let j : V4 := p.sub (((p.scale ns.z).scale ns.z).floor.scale 49)
  let x_ : V4 := (j.scale ns.z).floor
  let y_ : V4 := (j.sub (x_.scale 7)).floor
  let x : V4 := (x_.scale ns.x).addScalar ns.y
  let y : V4 := (y_.scale ns.x).addScalar ns.y
  let h : V4 := ⟨1 - |x.x| - |y.x|, 1 - |x.y| - |y.y|, 1 - |x.z| - |y.z|, 1 - |x.w| - |y.w|⟩
  let b0 : V4 := ⟨x.x, x.y, y.x, y.y⟩
  let b1 : V4 := ⟨x.z, x.w, y.z, y.w⟩
  let s0 : V4 := (b0.floor.scale 2).addScalar 1
  let s1 : V4 := (b1.floor.scale 2).addScalar 1
  let sh : V4 := ⟨-gstep h.x 0, -gstep h.y 0, -gstep h.z 0, -gstep h.w 0⟩
  let a0 : V4 := ⟨b0.x + s0.x * sh.x, b0.z + s0.z * sh.x, b0.y + s0.y * sh.y, b0.w + s0.w * sh.y⟩
  let a1 : V4 := ⟨b1.x + s1.x * sh.z, b1.z + s1.z * sh.z, b1.y + s1.y * sh.w, b1.w + s1.w * sh.w⟩
  let p0 : V3 := ⟨a0.x, a0.y, h.x⟩
  let p1 : V3 := ⟨a0.z, a0.w, h.y⟩
  let p2 : V3 := ⟨a1.x, a1.y, h.z⟩
  let p3 : V3 := ⟨a1.z, a1.w, h.w⟩
  let norm : V4 := taylorInvSqrt ⟨p0.dot p0, p1.dot p1, p2.dot p2, p3.dot p3⟩
  let p0 : V3 := p0.scale norm.x
  let p1 : V3 := p1.scale norm.y
  let p2 : V3 := p2.scale norm.z
  let p3 : V3 := p3.scale norm.w
  let m : V4 := ⟨max (0.6 - x0.dot x0) 0, max (0.6 - x1.dot x1) 0,
                 max (0.6 - x2.dot x2) 0, max (0.6 - x3.dot x3) 0⟩
  let m : V4 := m.mul m
  42 * (m.mul m).dot ⟨p0.dot x0, p1.dot x1, p2.dot x2, p3.dot x3⟩

/-- GLSL mix(x, y, a) = x*(1−a) + y*a, componentwise on vec3. -/
noncomputable def mix3 (a b : V3) (t : ℝ) : V3 :=
  ⟨a.x * (1 - t) + b.x * t, a.y * (1 - t) + b.y * t, a.z * (1 - t) + b.z * t⟩

/-- The vertex shader's position logic:
    `vec3 pos = mix(aTreePos, aChaosPos, uProgress);`
    `float noise = snoise(pos * 0.5 + uTime * 0.5);`
    `pos += noise * 0.2 * (1.0 - uProgress);` -/
noncomputable def shaderVertexPos (aTreePos aChaosPos : V3) (uProgress uTime : ℝ) : V3 :=
  let pos := mix3 aTreePos aChaosPos uProgress
  let noise := snoise ((pos.scale 0.5).addScalar (uTime * 0.5))
  pos.addScalar (noise * 0.2 * (1 - uProgress))

/-- The vertex shader's size logic: `float baseSize = aSize;` then
    `if (aIsLight > 0.5) { float twinkle = sin(uTime * 3.0 + pos.x * 10.0) * 0.5 + 0.5;`
    `baseSize = aSize * (1.0 + twinkle * 1.5); }` -/
noncomputable def shaderBaseSize (aSize aIsLight uTime posx : ℝ) : ℝ :=
  if aIsLight > 0.5 then
    aSize * (1 + (Real.sin (uTime * 3 + posx * 10) * 0.5 + 0.5) * 1.5)
  else aSize

/-- Written from the spec's twinkle formula, for comparison with the source:
    size multiplied by 1 + 0.5·(1 + sin(elapsedTime·3 + pos.x·10))·1.5. -/
noncomputable def specTwinkleSize (size elapsedTime posx : ℝ) : ℝ :=
  size * (1 + 0.5 * (1 + Real.sin (elapsedTime * 3 + posx * 10)) * 1.5)

/-- Written from the spec's position formula, for comparison with the source:
    pos = lerp(treePosition, chaosPosition, chaosLevel), componentwise. -/
noncomputable def specBlend (treePosition chaosPosition : V3) (chaosLevel : ℝ) : V3 :=
  ⟨lerp treePosition.x chaosPosition.x chaosLevel,
   lerp treePosition.y chaosPosition.y chaosLevel,
   lerp treePosition.z chaosPosition.z chaosLevel⟩

/-- C1 counterexample: the source lerp has no clamp, so with current 0, target 1,
    rate 2 and the non-negative frame delta dt = 1 the smoothing step evaluates to
    lerp(0, 1, 2·1) = 2, which does not lie between the current value 0 and the
    target 1: it overshoots the target. -/
theorem C1_counterexample :
    lerp (0 : ℚ) 1 (2 * 1) = 2 ∧
      ¬ (min (0 : ℚ) 1 ≤ lerp (0 : ℚ) 1 (2 * 1) ∧ lerp (0 : ℚ) 1 (2 * 1) ≤ max (0 : ℚ) 1) := by
  refine ⟨by norm_num [lerp], ?_⟩
  rintro ⟨-, h⟩
  norm_num [lerp] at h

/-- C1 (amended): for every current c, target t, and rate·dt lying in [0, 1], the
    smoothing step lerp(c, t, rate·dt) lies between c and t inclusive. -/
theorem C1_lerp_no_overshoot (c t rate dt : ℚ) (h0 : 0 ≤ rate * dt) (h1 : rate * dt ≤ 1) :
    min c t ≤ lerp c t (rate * dt) ∧ lerp c t (rate * dt) ≤ max c t := by
  unfold lerp
  constructor
  · rcases le_total c t with h | h
    · rw [min_eq_left h]
      nlinarith [mul_nonneg h0 (sub_nonneg.2 h)]
    · rw [min_eq_right h]
      nlinarith [mul_nonneg (sub_nonneg.2 h1) (sub_nonneg.2 h)]
  · rcases le_total c t with h | h
    · rw [max_eq_right h]
      nlinarith [mul_nonneg (sub_nonneg.2 h1) (sub_nonneg.2 h)]
    · rw [max_eq_left h]
      nlinarith [mul_nonneg h0 (sub_nonneg.2 h)]

theorem C1_lerp_no_overshoot_witness :
    (0 : ℚ) ≤ 2 * (1 / 4) ∧ (2 : ℚ) * (1 / 4) ≤ 1 ∧
      (min (0 : ℚ) 1 ≤ lerp (0 : ℚ) 1 (2 * (1 / 4)) ∧
        lerp (0 : ℚ) 1 (2 * (1 / 4)) ≤ max (0 : ℚ) 1) :=
  ⟨by norm_num, by norm_num, C1_lerp_no_overshoot 0 1 2 (1 / 4) (by norm_num) (by norm_num)⟩

/-- C3: the smoothing step with current equal to target returns exactly the
    current value: lerp(c, c, rate·dt) = c (fixed-point idempotence). -/
theorem C3_lerp_fixed_point (c rate dt : ℚ) : lerp c c (rate * dt) = c := by
  unfold lerp
  ring

/-- C6 counterexample: the per-frame update does not clamp its inputs. With
    targetChaosLevel = 2 (outside [0,1]) and dt = 1/4 it returns 1 while the
    spec's clamped update returns 1/2; with dt = −1/2 (negative) it returns −1
    while the spec's clamped update treats the frame as a no-op and returns the
    current value 0. -/
theorem C6_counterexample :
    updateChaosLevel 0 2 (1 / 4) = 1 ∧ clampedUpdateChaosLevel 0 2 (1 / 4) = 1 / 2 ∧
      updateChaosLevel 0 1 (-(1 / 2)) = -1 ∧ clampedUpdateChaosLevel 0 1 (-(1 / 2)) = 0 := by
  refine ⟨?_, ?_, ?_, ?_⟩ <;> norm_num [updateChaosLevel, clampedUpdateChaosLevel, lerp]

/-- C6 (amended): the per-frame update performs no input clamping; it agrees with
    the spec's defensively clamped update exactly when the inputs are already in
    range (dt ≥ 0 and targetChaosLevel in [0,1]), and out-of-range inputs
    propagate unchanged into the smoothing computation. -/
theorem C6_update_unclamped (c t d : ℚ) (ht0 : 0 ≤ t) (ht1 : t ≤ 1) (hd : 0 ≤ d) :
    updateChaosLevel c t d = clampedUpdateChaosLevel c t d := by
  unfold updateChaosLevel clampedUpdateChaosLevel
  rw [max_eq_right ht0, min_eq_right ht1, max_eq_right hd]

theorem C6_update_unclamped_witness :
    (0 : ℚ) ≤ 1 / 2 ∧ (1 / 2 : ℚ) ≤ 1 ∧ (0 : ℚ) ≤ 1 / 8 ∧
      updateChaosLevel 0 (1 / 2) (1 / 8) = clampedUpdateChaosLevel 0 (1 / 2) (1 / 8) :=
  ⟨by norm_num, by norm_num, by norm_num,
    C6_update_unclamped 0 (1 / 2) (1 / 8) (by norm_num) (by norm_num) (by norm_num)⟩

/-- C8: the per-frame ornament display scale is lerp(0.35, 0.1, chaosLevel');
    it is exactly 0.35 at chaosLevel' = 0 and exactly 0.1 at chaosLevel' = 1. -/
theorem C8_ornament_scale :
    (∀ c : ℚ, ornamentScale c = lerp 0.35 0.1 c) ∧
      ornamentScale 0 = 0.35 ∧ ornamentScale 1 = 0.1 :=
  ⟨fun _ => rfl, by norm_num [ornamentScale, lerp], by norm_num [ornamentScale, lerp]⟩

/-- C10: every ornament's currentPosition and the star's currentPosition are
    initialized to the zero vector (0,0,0); consequently a first frame update
    from the origin moves each coordinate to target·(dt·4), i.e. the element
    starts converging toward its blended target from the origin. -/
theorem C10_initial_positions :
    initialCurrentPos = List.replicate ORNAMENT_COUNT (0, 0, 0) ∧
      initialStarPos = (0, 0, 0) ∧
      ∀ (target : ℚ × ℚ × ℚ) (d : ℚ),
        ornamentPosStep (0, 0, 0) target d =
          (target.1 * (d * 4), target.2.1 * (d * 4), target.2.2 * (d * 4)) := by
  refine ⟨rfl, rfl, fun target d => ?_⟩
  unfold ornamentPosStep lerp
  norm_num

theorem chaosSeq_closed_form (dt c0 : ℝ) (n : ℕ) :
    chaosSeq dt c0 n = 1 - (1 - c0) * (1 - dt * 2) ^ n := by
  induction n with
  | zero => simp [chaosSeq_zero]
  | succ n ih =>
    rw [chaosSeq_succ, ih]
    unfold lerp
    ring

/-- C2 counterexample: with the fixed positive frame delta dt = 1 and initial
    chaosLevel 0, iterating the update lerp(chaosLevel, 1, dt·2) gives the
    sequence 0, 2, 0, 2, …, which is not monotonically non-decreasing and does
    not converge to 1. -/
theorem C2_counterexample :
    ¬ (Monotone (chaosSeq 1 0) ∧ Tendsto (chaosSeq 1 0) atTop (nhds 1)) := by
  rintro ⟨hmono, -⟩
  have h1 : chaosSeq 1 0 1 = 2 := by
    rw [show (1 : ℕ) = 0 + 1 from rfl, chaosSeq_succ, chaosSeq_zero]
    norm_num [lerp]
  have h2 : chaosSeq 1 0 2 = 0 := by
    rw [show (2 : ℕ) = 0 + 1 + 1 from rfl, chaosSeq_succ, chaosSeq_succ, chaosSeq_zero]
    norm_num [lerp]
  have h := hmono (show (1 : ℕ) ≤ 2 by norm_num)
  rw [h1, h2] at h
  norm_num at h

/-- C2 (amended): for a fixed frame delta dt with 0 < dt and dt·2 ≤ 1 and any
    initial chaosLevel in [0,1], with targetChaosLevel held at 1.0 the iterated
    per-frame update is monotonically non-decreasing and converges to 1 in the
    limit. -/
theorem C2_chaos_converges (dt c0 : ℝ) (hdt : 0 < dt) (hdt2 : dt * 2 ≤ 1)
    (hc0 : 0 ≤ c0) (hc1 : c0 ≤ 1) :
    Monotone (chaosSeq dt c0) ∧ Tendsto (chaosSeq dt c0) atTop (nhds 1) := by
  have hr0 : (0 : ℝ) ≤ 1 - dt * 2 := by linarith
  have hr1 : 1 - dt * 2 < 1 := by linarith
  constructor
  · apply monotone_nat_of_le_succ
    intro n
    rw [chaosSeq_closed_form, chaosSeq_closed_form]
    have hpow : (0 : ℝ) ≤ (1 - dt * 2) ^ n := pow_nonneg hr0 n
    have hstep : (1 - dt * 2) ^ (n + 1) = (1 - dt * 2) ^ n * (1 - dt * 2) := pow_succ _ _
    nlinarith [mul_nonneg (mul_nonneg (sub_nonneg.2 hc1) hpow) (le_of_lt hdt)]
  · have hfun : chaosSeq dt c0 = fun n => 1 - (1 - c0) * (1 - dt * 2) ^ n :=
      funext (chaosSeq_closed_form dt c0)
    rw [hfun]
    have hpow := tendsto_pow_atTop_nhds_zero_of_lt_one hr0 hr1
    have hmul := hpow.const_mul (1 - c0)
    have hsub := hmul.const_sub (1 : ℝ)
    simpa using hsub

theorem C2_chaos_converges_witness :
    (0 : ℝ) < 1 / 2 ∧ (1 / 2 : ℝ) * 2 ≤ 1 ∧ (0 : ℝ) ≤ 0 ∧ (0 : ℝ) ≤ 1 ∧
      (Monotone (chaosSeq (1 / 2) 0) ∧ Tendsto (chaosSeq (1 / 2) 0) atTop (nhds 1)) :=
  ⟨by norm_num, by norm_num, le_refl 0, by norm_num,
    C2_chaos_converges (1 / 2) 0 (by norm_num) (by norm_num) (le_refl 0) (by norm_num)⟩

/-- C7: for a light particle (aIsLight = 1 > 0.5) the vertex-stage size equals the
    spec's formula aSize·(1 + 0.5·(1 + sin(uTime·3 + pos.x·10))·1.5) — the code's
    aSize·(1 + (sin(uTime·3 + pos.x·10)·0.5 + 0.5)·1.5) is algebraically the same
    — and for a non-light particle (aIsLight = 0) the size receives no twinkle
    modulation: it stays aSize. -/
theorem C7_twinkle_size (aSize uTime posx : ℝ) :
    shaderBaseSize aSize 1 uTime posx = specTwinkleSize aSize uTime posx ∧
      shaderBaseSize aSize 0 uTime posx = aSize := by
  constructor
  · unfold shaderBaseSize specTwinkleSize
    rw [if_pos (by norm_num : (1 : ℝ) > 0.5)]
    ring
  · unfold shaderBaseSize
    rw [if_neg (by norm_num : ¬ ((0 : ℝ) > 0.5))]

theorem mix3_eq_specBlend (a b : V3) (t : ℝ) : mix3 a b t = specBlend a b t := by
  unfold mix3 specBlend lerp
  rfl

/-- C9: the vertex-stage position is the spec blend lerp(treePosition,
    chaosPosition, chaosLevel) plus the scalar noise perturbation
    snoise(pos·0.5 + uTime·0.5)·0.2·(1 − chaosLevel) added to every component;
    at chaosLevel = 0 the blend term equals treePosition exactly, and at
    chaosLevel = 1 the noise perturbation is exactly zero, so the position is
    exactly the blend (the chaos position). -/
theorem C9_vertex_position (tp cp : V3) (prog t : ℝ) :
    shaderVertexPos tp cp prog t =
        (specBlend tp cp prog).addScalar
          (snoise (((specBlend tp cp prog).scale 0.5).addScalar (t * 0.5)) * 0.2 * (1 - prog)) ∧
      specBlend tp cp 0 = tp ∧
      shaderVertexPos tp cp 1 t = cp := by
  refine ⟨?_, ?_, ?_⟩
  · unfold shaderVertexPos
    rw [mix3_eq_specBlend]
  · unfold specBlend lerp
    ext <;> simp
  · unfold shaderVertexPos mix3 V3.scale V3.addScalar
    ext <;> (simp only []; ring)

theorem cbrt_nonneg_of_nonneg {w : ℝ} (hw : 0 ≤ w) : 0 ≤ cbrt w := by
  unfold cbrt
  rw [if_neg (not_lt.2 hw)]
  exact Real.rpow_nonneg hw _

theorem cbrt_le_one_of_le_one {w : ℝ} (hw0 : 0 ≤ w) (hw1 : w ≤ 1) : cbrt w ≤ 1 := by
  unfold cbrt
  rw [if_neg (not_lt.2 hw0)]
  exact Real.rpow_le_one hw0 hw1 (by norm_num)

/-- C4: getRandomSpherePoint computes the spec's method (theta = 2π·u1,
    phi = acos(2·u2 − 1), radial distance radius·cbrt(u3), spherical-to-Cartesian
    conversion), and for radius > 0 and uniform draws in [0,1) the returned point
    has Euclidean norm at most radius. -/
theorem C4_sphere_point (radius u v w : ℝ) (hr : 0 < radius)
    (hu : 0 ≤ u ∧ u < 1) (hv : 0 ≤ v ∧ v < 1) (hw : 0 ≤ w ∧ w < 1) :
    getRandomSpherePoint radius u v w = specSphereSample radius u v w ∧
      norm3 (getRandomSpherePoint radius u v w) ≤ radius := by
  have hcw0 : 0 ≤ cbrt w := cbrt_nonneg_of_nonneg hw.1
  have hcw1 : cbrt w ≤ 1 := cbrt_le_one_of_le_one hw.1 hw.2.le
  constructor
  · simp only [getRandomSpherePoint, specSphereSample, Prod.mk.injEq]
    refine ⟨by ring, by ring, by ring⟩
  · show Real.sqrt
        ((cbrt w * radius * Real.sin (Real.arccos (2 * v - 1)) * Real.cos (2 * Real.pi * u)) ^ 2 +
          (cbrt w * radius * Real.sin (Real.arccos (2 * v - 1)) * Real.sin (2 * Real.pi * u)) ^ 2 +
          (cbrt w * radius * Real.cos (Real.arccos (2 * v - 1))) ^ 2) ≤ radius
    have hθ := Real.sin_sq_add_cos_sq (2 * Real.pi * u)
    have hφ := Real.sin_sq_add_cos_sq (Real.arccos (2 * v - 1))
    have hρ0 : 0 ≤ cbrt w * radius := mul_nonneg hcw0 hr.le
    have hsum :
        (cbrt w * radius * Real.sin (Real.arccos (2 * v - 1)) * Real.cos (2 * Real.pi * u)) ^ 2 +
          (cbrt w * radius * Real.sin (Real.arccos (2 * v - 1)) * Real.sin (2 * Real.pi * u)) ^ 2 +
          (cbrt w * radius * Real.cos (Real.arccos (2 * v - 1))) ^ 2 = (cbrt w * radius) ^ 2 := by
      linear_combination
        ((cbrt w * radius) ^ 2 * Real.sin (Real.arccos (2 * v - 1)) ^ 2) * hθ +
          (cbrt w * radius) ^ 2 * hφ
    rw [hsum, Real.sqrt_sq hρ0]
    calc cbrt w * radius ≤ 1 * radius := mul_le_mul_of_nonneg_right hcw1 hr.le
      _ = radius := one_mul radius

theorem C4_sphere_point_witness :
    (0 : ℝ) < 1 ∧ ((0 : ℝ) ≤ 0 ∧ (0 : ℝ) < 1) ∧
      (getRandomSpherePoint 1 0 0 0 = specSphereSample 1 0 0 0 ∧
        norm3 (getRandomSpherePoint 1 0 0 0) ≤ 1) :=
  ⟨by norm_num, ⟨le_refl 0, by norm_num⟩,
    C4_sphere_point 1 0 0 0 (by norm_num) ⟨le_refl 0, by norm_num⟩ ⟨le_refl 0, by norm_num⟩
      ⟨le_refl 0, by norm_num⟩⟩

/-- C5: getConePoint's y-coordinate lies in [yOffset, yOffset + height], its
    horizontal distance from the axis is at most
    radiusBase·(1 − (y − yOffset)/height)^0.8, and the radial fraction
    0.4 + u3·0.6 drawn from u3 lies in [0.4, 1). -/
theorem C5_cone_point (height radiusBase yOffset u1 u2 u3 : ℝ)
    (hh : 0 < height) (hrb : 0 < radiusBase)
    (hu1 : 0 ≤ u1 ∧ u1 < 1) (hu2 : 0 ≤ u2 ∧ u2 < 1) (hu3 : 0 ≤ u3 ∧ u3 < 1) :
    yOffset ≤ (getConePoint height radiusBase yOffset u1 u2 u3).2.1 ∧
      (getConePoint height radiusBase yOffset u1 u2 u3).2.1 ≤ yOffset + height ∧
      horizDist (getConePoint height radiusBase yOffset u1 u2 u3) ≤
        radiusBase *
          (1 - ((getConePoint height radiusBase yOffset u1 u2 u3).2.1 - yOffset) / height) ^
            (0.8 : ℝ) ∧
      (0.4 : ℝ) ≤ 0.4 + u3 * 0.6 ∧ 0.4 + u3 * 0.6 < 1 := by
  have hy : (getConePoint height radiusBase yOffset u1 u2 u3).2.1 = u1 * height + yOffset := rfl
  have hbase : 1 - u1 * height / height = 1 - u1 := by
    rw [mul_div_assoc, div_self hh.ne', mul_one]
  have hA0 : 0 ≤ (1 - u1 * height / height) ^ (0.8 : ℝ) := by
    apply Real.rpow_nonneg
    rw [hbase]
    linarith [hu1.2]
  have hfrac0 : (0 : ℝ) ≤ 0.4 + u3 * 0.6 := by nlinarith [hu3.1]
  have hfrac1 : 0.4 + u3 * 0.6 ≤ 1 := by nlinarith [hu3.2]
  refine ⟨?_, ?_, ?_, by nlinarith [hu3.1], by nlinarith [hu3.2]⟩
  · rw [hy]
    nlinarith [mul_nonneg hu1.1 hh.le]
  · rw [hy]
    nlinarith [mul_le_of_le_one_left hh.le hu1.2.le]
  · rw [hy]
    show Real.sqrt
        ((radiusBase * (1 - u1 * height / height) ^ (0.8 : ℝ) * (0.4 + u3 * 0.6) *
            Real.cos (u2 * (Real.pi * 2))) ^ 2 +
          (radiusBase * (1 - u1 * height / height) ^ (0.8 : ℝ) * (0.4 + u3 * 0.6) *
            Real.sin (u2 * (Real.pi * 2))) ^ 2) ≤
      radiusBase * (1 - (u1 * height + yOffset - yOffset) / height) ^ (0.8 : ℝ)
    have harg : u1 * height + yOffset - yOffset = u1 * height := by ring
    rw [harg]
    have hr0 : 0 ≤ radiusBase * (1 - u1 * height / height) ^ (0.8 : ℝ) * (0.4 + u3 * 0.6) :=
      mul_nonneg (mul_nonneg hrb.le hA0) hfrac0
    have hsum :
        (radiusBase * (1 - u1 * height / height) ^ (0.8 : ℝ) * (0.4 + u3 * 0.6) *
            Real.cos (u2 * (Real.pi * 2))) ^ 2 +
          (radiusBase * (1 - u1 * height / height) ^ (0.8 : ℝ) * (0.4 + u3 * 0.6) *
            Real.sin (u2 * (Real.pi * 2))) ^ 2 =
          (radiusBase * (1 - u1 * height / height) ^ (0.8 : ℝ) * (0.4 + u3 * 0.6)) ^ 2 := by
      linear_combination
        (radiusBase * (1 - u1 * height / height) ^ (0.8 : ℝ) * (0.4 + u3 * 0.6)) ^ 2 *
          Real.sin_sq_add_cos_sq (u2 * (Real.pi * 2))
    rw [hsum, Real.sqrt_sq hr0]
    calc radiusBase * (1 - u1 * height / height) ^ (0.8 : ℝ) * (0.4 + u3 * 0.6) ≤
        radiusBase * (1 - u1 * height / height) ^ (0.8 : ℝ) * 1 :=
          mul_le_mul_of_nonneg_left hfrac1 (mul_nonneg hrb.le hA0)
      _ = radiusBase * (1 - u1 * height / height) ^ (0.8 : ℝ) := mul_one _

theorem C5_cone_point_witness :
    (0 : ℝ) < 1 ∧ ((0 : ℝ) ≤ 0 ∧ (0 : ℝ) < 1) ∧
      ((0 : ℝ) ≤ (getConePoint 1 1 0 0 0 0).2.1 ∧
        (getConePoint 1 1 0 0 0 0).2.1 ≤ 0 + 1 ∧
        horizDist (getConePoint 1 1 0 0 0 0) ≤
          1 * (1 - ((getConePoint 1 1 0 0 0 0).2.1 - 0) / 1) ^ (0.8 : ℝ) ∧
        (0.4 : ℝ) ≤ 0.4 + 0 * 0.6 ∧ (0.4 : ℝ) + 0 * 0.6 < 1) := by
  exact ⟨by norm_num, ⟨le_refl 0, by norm_num⟩,
    C5_cone_point 1 1 0 0 0 0 (by norm_num) (by norm_num) ⟨le_refl 0, by norm_num⟩
      ⟨le_refl 0, by norm_num⟩ ⟨le_refl 0, by norm_num⟩⟩
